import Mathlib

/-!
Shallow embedding of `src/core/dbus-manager.c` (the control-plane request
gateway of the process supervisor): the broadcast/fan-out engine
(`bus_manager_foreach_client`), the deferred reload reply, the subscriber
registry methods, the lifecycle methods, the unit-file batch reply path and
the unit/job lookup handlers, together with theorems settling the frozen
claims about this code.

Conventions of the embedding:
* bus connections are identified by natural numbers (`sd_bus *` pointers);
* C strings are Lean `String`s; a `NULL` string is `Option.none` where the
  source distinguishes NULL (e.g. a broadcast destination);
* negative C return codes are Lean `Int`s; protocol-level faults
  (`sd_bus_error_setf`) are a dedicated `BusError` type;
* the SELinux authorization outcome (`selinux_access_check` /
  `selinux_unit_access_check`, external policy) is passed in as a boolean
  parameter `allowed` / `authOK`;
* handlers that mutate the `Manager` return the (possibly updated) manager
  together with an optional fault, mirroring the C early-return structure:
  a fault always leaves the manager unchanged.
-/

namespace DbusManager

/-- Protocol-level fault kinds from `bus-errors.h` / `sd-bus` used by the
handlers in this file. -/
inductive BusError where
  | NO_SUCH_UNIT
  | NO_SUCH_JOB
  | NO_UNIT_FOR_PID
  | UNIT_EXISTS
  | ALREADY_SUBSCRIBED
  | NOT_SUBSCRIBED
  | INVALID_ARGS
  | NOT_SUPPORTED
  | ACCESS_DENIED
deriving DecidableEq

/-- Decidable equality for handler results (`Except` carrying a fault or a
reply value). -/
instance {ε α : Type} [DecidableEq ε] [DecidableEq α] :
    DecidableEq (Except ε α) := fun x y =>
  match x, y with
  | .error e, .error f =>
      if h : e = f then isTrue (by rw [h]) else isFalse (by simp [h])
  | .error _, .ok _ => isFalse (by simp)
  | .ok _, .error _ => isFalse (by simp)
  | .ok a, .ok b =>
      if h : a = b then isTrue (by rw [h]) else isFalse (by simp [h])

/-- Modelled from the spec: the manager runtime mode (`manager.h`, not in the
source tree) — a system-scope instance or a user-scope instance, read from
`m->running_as` by the lifecycle handlers. -/
inductive SystemdRunningAs where
  | SYSTEMD_SYSTEM
  | SYSTEMD_USER
deriving DecidableEq

/-- Modelled from the spec: the manager exit-code enumeration (`manager.h`,
not in the source tree) recorded by the lifecycle handlers to schedule
process-lifecycle transitions. -/
inductive ManagerExitCode where
  | MANAGER_OK
  | MANAGER_EXIT
  | MANAGER_RELOAD
  | MANAGER_REEXECUTE
  | MANAGER_REBOOT
  | MANAGER_POWEROFF
  | MANAGER_HALT
  | MANAGER_KEXEC
  | MANAGER_SWITCH_ROOT
deriving DecidableEq

/-- Modelled from the spec: the unit-type tag (`unit.h`, not in the source
tree); the only distinction this file reads is snapshot vs. non-snapshot
(`u->type != UNIT_SNAPSHOT` in `method_remove_snapshot`). -/
inductive UnitType where
  | UNIT_SERVICE
  | UNIT_TARGET
  | UNIT_SNAPSHOT
deriving DecidableEq

/-- A loaded unit object, with its primary id modelled both as a pointer
identity (`idPtr`, the address of the `u->id` string, used by the
`k != u->id` pointer comparison in `method_list_units`) and as its string
contents (`idStr`). -/
structure UnitObj where
  idPtr : Nat
  idStr : String
  utype : UnitType
deriving DecidableEq

/-- One entry of the manager's `m->units` hashmap: a key (again as pointer
identity plus string contents) mapping to a unit object.  A unit is
registered once under its primary id (`keyPtr = unit.idPtr`) and possibly
again under alias names (different key pointers). -/
structure UnitEntry where
  keyPtr : Nat
  keyStr : String
  unit : UnitObj
deriving DecidableEq

/-- One entry of the manager's `m->jobs` hashmap, keyed by numeric job id. -/
structure JobObj where
  id : Nat
deriving DecidableEq

/-- A tracked subscriber (`BusTrackedClient` from `dbus-client-track.h`):
the bus connection it arrived on and its sender name (the destination
filter; `""` models a NULL/empty name, i.e. a broadcast-capable endpoint). -/
structure BusTrackedClient where
  bus : Nat
  name : String
deriving DecidableEq

/-- The slice of `Manager` state read and written by the handlers embedded
here. -/
structure Manager where
  running_as : SystemdRunningAs
  exit_code : ManagerExitCode
  subscribed : List BusTrackedClient
  private_buses : List Nat
  api_bus : Option Nat
  queued_message : Option Nat
  switch_root : Option String
  switch_root_init : Option String
  units : List UnitEntry
  jobs : List JobObj
deriving DecidableEq

/-- One transport send performed by the broadcast engine: the bus connection
and the destination passed to `send_message` (`none` = NULL = broadcast). -/
structure Send where
  bus : Nat
  dest : Option String
deriving DecidableEq

/-- The `isempty` test on a C string (NULL or "" both modelled as `""`). -/
def isempty (s : String) : Bool := s = ""

/-- The `SET_FOREACH(b, m->private_buses, ...)` loop body of
`bus_manager_foreach_client`: send an unfiltered copy to each private bus in
turn, returning the attempted sends and the C return code; a negative send
result returns immediately (the loop is abandoned). -/
def foreachPrivateBuses (send : Nat → Option String → Int) :
    List Nat → List Send × Int
  | [] => ([], 0)
  | b :: bs =>
      let r := send b none
      if r < 0 then ([⟨b, none⟩], r)
      else
        let p := foreachPrivateBuses send bs
        (⟨b, none⟩ :: p.1, p.2)

/-- The broadcast engine `bus_manager_foreach_client`: 0 subscribers — no
sends; exactly 1 subscriber — one send to that subscriber's bus with its
recorded destination filter; otherwise one unfiltered send per open private
bus (aborting on the first failure) followed by one to the shared api bus if
present.  Returns the list of attempted sends and the C return code. -/
def bus_manager_foreach_client (m : Manager) (send : Nat → Option String → Int) :
    List Send × Int :=
  let n := m.subscribed.length
  if n = 0 then ([], 0)
  else if n = 1 then
    match m.subscribed.head? with
    | some d =>
        let dest := if isempty d.name then none else some d.name
        ([⟨d.bus, dest⟩], send d.bus dest)
    | none => ([], 0)
  else
    let p := foreachPrivateBuses send m.private_buses
    if p.2 < 0 then p
    else
      match m.api_bus with
      | some a => (p.1 ++ [⟨a, none⟩], send a none)
      | none => (p.1, 0)

/-- Outcome of `method_reload`: the reply was queued into
`m->queued_message` (carrying the updated manager), a protocol fault was
returned, or the `assert(!m->queued_message)` assertion tripped (process
abort). -/
inductive ReloadOutcome where
  | queued (mNew : Manager)
  | fault (k : BusError)
  | abort
deriving DecidableEq

/-- Whether a `ReloadOutcome` is a protocol-level fault returned to the
caller. -/
def ReloadOutcome.isFault : ReloadOutcome → Bool
  | .fault _ => true
  | _ => false

/-- `method_reload`: after the coarse check, `assert(!m->queued_message)`
(abort when a deferred reply is already held), then queue the method-return
message (identified by `token`) and record `MANAGER_RELOAD`. -/
def method_reload (m : Manager) (allowed : Bool) (token : Nat) : ReloadOutcome :=
  if !allowed then .fault .ACCESS_DENIED
  else if m.queued_message.isSome then .abort
  else .queued { m with queued_message := some token,
                        exit_code := .MANAGER_RELOAD }

/-- Modelled from the spec: `manager_get_unit` (`manager.c`, not in the
source tree) resolves a unit by name from the supervisor core's unit
registry (a hashmap keyed by unit name); an absent name yields nothing. -/
def manager_get_unit (m : Manager) (name : String) : Option UnitObj :=
  (m.units.find? (fun e => e.keyStr == name)).map (fun e => e.unit)

/-- Modelled from the spec: `manager_get_job` (`manager.c`, not in the
source tree) resolves a job by numeric id from the supervisor core's job
registry; an absent id yields nothing. -/
def manager_get_job (m : Manager) (id : Nat) : Option JobObj :=
  m.jobs.find? (fun j => j.id == id)

/-- `unit_dbus_path`: the bus object path of a unit (derived from its
primary id). -/
def unit_dbus_path (u : UnitObj) : String :=
  "/org/freedesktop/systemd1/unit/" ++ u.idStr

/-- Observable events of a lookup handler, used to state ordering claims:
resolving a unit by name, resolving a job by id, and invoking an
authorization check. -/
inductive Ev where
  | lookupUnit (name : String)
  | lookupJob (id : Nat)
  | authCheck
deriving DecidableEq

/-- `method_get_unit`: read the name, resolve the unit via
`manager_get_unit` (NoSuchUnit when absent), then run
`selinux_unit_access_check(u, ..., "status")` on the resolved unit, then
reply with the unit's object path.  Returns the event trace in program
order together with the result. -/
def method_get_unit (m : Manager) (name : String) (authOK : Bool) :
    List Ev × Except BusError String :=
  match manager_get_unit m name with
  | none => ([Ev.lookupUnit name], .error .NO_SUCH_UNIT)
  | some u =>
      if authOK then
        ([Ev.lookupUnit name, Ev.authCheck], .ok (unit_dbus_path u))
      else
        ([Ev.lookupUnit name, Ev.authCheck], .error .ACCESS_DENIED)

/-- `method_get_job`: read the id, resolve the job via `manager_get_job`
(NoSuchJob when absent), then run `selinux_unit_access_check(j->unit, ...,
"status")`, then reply with the job's object path (modelled by its id).
Returns the event trace in program order together with the result. -/
def method_get_job (m : Manager) (id : Nat) (authOK : Bool) :
    List Ev × Except BusError Nat :=
  match manager_get_job m id with
  | none => ([Ev.lookupJob id], .error .NO_SUCH_JOB)
  | some j =>
      if authOK then
        ([Ev.lookupJob id, Ev.authCheck], .ok j.id)
      else
        ([Ev.lookupJob id, Ev.authCheck], .error .ACCESS_DENIED)

/-- Whether an endpoint (bus connection + sender name) is tracked in the
subscriber set. -/
def clientTracked (s : List BusTrackedClient) (bus : Nat) (name : String) : Bool :=
  s.any (fun d => d.bus == bus && d.name == name)

/-- Modelled from the spec: `bus_client_track` (`dbus-client-track.c`, not
in the source tree) adds an endpoint to the subscriber set keyed by endpoint
identity; returns 0 when it was already tracked (set unchanged) and 1 when
newly added. -/
def bus_client_track (s : List BusTrackedClient) (bus : Nat) (name : String) :
    Int × List BusTrackedClient :=
  if clientTracked s bus name then (0, s)
  else (1, s ++ [⟨bus, name⟩])

/-- Modelled from the spec: `bus_client_untrack` (`dbus-client-track.c`, not
in the source tree) removes an endpoint from the subscriber set; returns 0
when it was not tracked (set unchanged) and 1 when removed. -/
def bus_client_untrack (s : List BusTrackedClient) (bus : Nat) (name : String) :
    Int × List BusTrackedClient :=
  if clientTracked s bus name then
    (1, s.filter (fun d => !(d.bus == bus && d.name == name)))
  else (0, s)

/-- `method_subscribe`: coarse check, then `bus_client_track` on the
sender; a 0 result (already tracked) yields the AlreadySubscribed fault,
otherwise an empty method return. -/
def method_subscribe (m : Manager) (allowed : Bool) (bus : Nat) (sender : String) :
    Manager × Option BusError :=
  if !allowed then (m, some .ACCESS_DENIED)
  else
    let p := bus_client_track m.subscribed bus sender
    if p.1 = 0 then (m, some .ALREADY_SUBSCRIBED)
    else ({ m with subscribed := p.2 }, none)

/-- `method_unsubscribe`: coarse check, then `bus_client_untrack` on the
sender; a 0 result (not tracked) yields the NotSubscribed fault, otherwise
an empty method return. -/
def method_unsubscribe (m : Manager) (allowed : Bool) (bus : Nat) (sender : String) :
    Manager × Option BusError :=
  if !allowed then (m, some .ACCESS_DENIED)
  else
    let p := bus_client_untrack m.subscribed bus sender
    if p.1 = 0 then (m, some .NOT_SUBSCRIBED)
    else ({ m with subscribed := p.2 }, none)

/-- Modelled from the spec: `path_is_absolute` (`path-util.c`, not in the
source tree) — a path is absolute when its first character is the path
separator (`path[0] == '/'`). -/
def path_is_absolute (p : String) : Bool :=
  match p.data with
  | [] => false
  | c :: _ => c == '/'

/-- Modelled from the spec: `path_equal(root, "/")` (`path-util.c`, not in
the source tree) — here only invoked against the literal root path, modelled
as string equality with "/". -/
def path_equal_rootfs (p : String) : Bool := p == "/"

/-- `method_switch_root`: coarse check; NotSupported unless a system
instance; InvalidArguments when the root is "/" or not absolute; then the
safety checks on the init path (`osTree` and `initExecutable` stand for the
external filesystem observations `path_is_os_tree` and `access(p, X_OK)`);
finally store the new switch-root and switch-root-init fields and reply. -/
def method_switch_root (m : Manager) (allowed : Bool) (root init : String)
    (osTree initExecutable : Bool) : Manager × Option BusError :=
  if !allowed then (m, some .ACCESS_DENIED)
  else if m.running_as ≠ .SYSTEMD_SYSTEM then (m, some .NOT_SUPPORTED)
  else if path_equal_rootfs root || !path_is_absolute root then
    (m, some .INVALID_ARGS)
  else if isempty init then
    if !osTree then (m, some .INVALID_ARGS)
    else ({ m with switch_root := some root, switch_root_init := none }, none)
  else if !path_is_absolute init then (m, some .INVALID_ARGS)
  else if !initExecutable then (m, some .INVALID_ARGS)
  else ({ m with switch_root := some root, switch_root_init := some init }, none)

/-- `method_exit`: coarse check; NotSupported for a system instance;
otherwise record `MANAGER_EXIT` and reply. -/
def method_exit (m : Manager) (allowed : Bool) : Manager × Option BusError :=
  if !allowed then (m, some .ACCESS_DENIED)
  else if m.running_as = .SYSTEMD_SYSTEM then (m, some .NOT_SUPPORTED)
  else ({ m with exit_code := .MANAGER_EXIT }, none)

/-- `method_reboot`: coarse check; NotSupported unless a system instance;
otherwise record `MANAGER_REBOOT` and reply. -/
def method_reboot (m : Manager) (allowed : Bool) : Manager × Option BusError :=
  if !allowed then (m, some .ACCESS_DENIED)
  else if m.running_as ≠ .SYSTEMD_SYSTEM then (m, some .NOT_SUPPORTED)
  else ({ m with exit_code := .MANAGER_REBOOT }, none)

/-- `method_poweroff`: coarse check; NotSupported unless a system instance;
otherwise record `MANAGER_POWEROFF` and reply. -/
def method_poweroff (m : Manager) (allowed : Bool) : Manager × Option BusError :=
  if !allowed then (m, some .ACCESS_DENIED)
  else if m.running_as ≠ .SYSTEMD_SYSTEM then (m, some .NOT_SUPPORTED)
  else ({ m with exit_code := .MANAGER_POWEROFF }, none)

/-- `method_halt`: coarse check; NotSupported unless a system instance;
otherwise record `MANAGER_HALT` and reply. -/
def method_halt (m : Manager) (allowed : Bool) : Manager × Option BusError :=
  if !allowed then (m, some .ACCESS_DENIED)
  else if m.running_as ≠ .SYSTEMD_SYSTEM then (m, some .NOT_SUPPORTED)
  else ({ m with exit_code := .MANAGER_HALT }, none)

/-- `method_kexec`: coarse check; NotSupported unless a system instance;
otherwise record `MANAGER_KEXEC` and reply. -/
def method_kexec (m : Manager) (allowed : Bool) : Manager × Option BusError :=
  if !allowed then (m, some .ACCESS_DENIED)
  else if m.running_as ≠ .SYSTEMD_SYSTEM then (m, some .NOT_SUPPORTED)
  else ({ m with exit_code := .MANAGER_KEXEC }, none)

/-- One change record produced by the batch unit-file operations
(`UnitFileChange` from `install.h`). -/
structure UnitFileChange where
  ctype : String
  path : String
  source : String
deriving DecidableEq

/-- `reply_unit_file_changes_and_free`: trigger one UnitFilesChanged
broadcast (via `bus_manager_foreach_client` with `send_unit_files_changed`)
exactly when the change list is non-empty, then build the reply: the
optional install-info boolean followed by the change 3-tuples.  The first
component counts the broadcasts triggered. -/
def reply_unit_file_changes_and_free (carries_install_info : Option Bool)
    (changes : List UnitFileChange) :
    Nat × Option Bool × List (String × String × String) :=
  ( if changes.length > 0 then 1 else 0,
    carries_install_info,
    changes.map (fun c => (c.ctype, c.path, c.source)) )

/-- `method_enable_unit_files_generic`: coarse check, decode, then the
external collaborator call (its outcome passed in as `callResult`: `none`
for a collaborator failure propagated as-is, `some (r, changes)` for
success); on success delegate to `reply_unit_file_changes_and_free`.
Returns the broadcast count and the reply (when one is produced). -/
def method_enable_unit_files_generic (allowed : Bool)
    (carries_install_info : Bool)
    (callResult : Option (Bool × List UnitFileChange)) :
    Nat × Option (Option Bool × List (String × String × String)) :=
  if !allowed then (0, none)
  else
    match callResult with
    | none => (0, none)
    | some (r, changes) =>
        let rep := reply_unit_file_changes_and_free
          (if carries_install_info then some r else none) changes
        (rep.1, some rep.2)

/-- `method_disable_unit_files_generic`: like the enable-side generic but
never carries install info. -/
def method_disable_unit_files_generic (allowed : Bool)
    (callResult : Option (List UnitFileChange)) :
    Nat × Option (Option Bool × List (String × String × String)) :=
  if !allowed then (0, none)
  else
    match callResult with
    | none => (0, none)
    | some changes =>
        let rep := reply_unit_file_changes_and_free none changes
        (rep.1, some rep.2)

/-- `method_set_default_target`: coarse check, decode, the external
`unit_file_set_default` call (outcome passed in), then
`reply_unit_file_changes_and_free` with no install info. -/
def method_set_default_target (allowed : Bool)
    (callResult : Option (List UnitFileChange)) :
    Nat × Option (Option Bool × List (String × String × String)) :=
  if !allowed then (0, none)
  else
    match callResult with
    | none => (0, none)
    | some changes =>
        let rep := reply_unit_file_changes_and_free none changes
        (rep.1, some rep.2)

/-- The `HASHMAP_FOREACH_KEY` loop of `method_list_units`: walk the unit
hashmap entries and append one tuple (modelled by the unit object) per
entry, skipping entries whose key pointer differs from the unit's primary id
pointer (`if (k != u->id) continue;`). -/
def listUnitsLoop : List UnitEntry → List UnitObj
  | [] => []
  | e :: es =>
      if e.keyPtr = e.unit.idPtr then e.unit :: listUnitsLoop es
      else listUnitsLoop es

/-- `method_list_units`: coarse check, then the snapshot produced by the
hashmap walk. -/
def method_list_units (m : Manager) (allowed : Bool) : Option (List UnitObj) :=
  if allowed then some (listUnitsLoop m.units) else none

/-- `method_remove_snapshot`: coarse check, read the name, resolve the unit
(NoSuchUnit with "does not exist" when absent), reject non-snapshot units
with NoSuchUnit ("is not a snapshot"), otherwise delegate to
`bus_snapshot_method_remove` (success, modelled as no fault). -/
def method_remove_snapshot (m : Manager) (allowed : Bool) (name : String) :
    Option BusError :=
  if !allowed then some .ACCESS_DENIED
  else
    match manager_get_unit m name with
    | none => some .NO_SUCH_UNIT
    | some u =>
        if u.utype ≠ .UNIT_SNAPSHOT then some .NO_SUCH_UNIT
        else none

/-! ## Concrete fixtures -/

/-- A baseline manager state: system instance, no subscribers, no open
connections, nothing pending. -/
def mBase : Manager :=
  { running_as := .SYSTEMD_SYSTEM
    exit_code := .MANAGER_OK
    subscribed := []
    private_buses := []
    api_bus := none
    queued_message := none
    switch_root := none
    switch_root_init := none
    units := []
    jobs := [] }

/-- Two subscribers and two open private connections (buses 0 and 1). -/
def mTwoSubs : Manager :=
  { mBase with subscribed := [⟨0, "cli.a"⟩, ⟨1, "cli.b"⟩], private_buses := [0, 1] }

/-- A send function that fails on bus 0 with -5 and succeeds elsewhere. -/
def sendFail0 : Nat → Option String → Int := fun b _ => if b = 0 then -5 else 0

/-- A send function that always succeeds. -/
def sendOk : Nat → Option String → Int := fun _ _ => 0

/-- Two subscribers, two private connections and a shared api connection
(bus 5). -/
def mTwoSubsApi : Manager :=
  { mBase with subscribed := [⟨2, "cli.a"⟩, ⟨3, "cli.b"⟩],
               private_buses := [0, 1], api_bus := some 5 }

/-! ## Broadcast-engine lemmas -/

/-- When every private-bus send succeeds, the fan-out loop delivers one
unfiltered copy to each private bus in order and returns 0. -/
theorem foreachPrivateBuses_all_ok (send : Nat → Option String → Int)
    (hok : ∀ b, 0 ≤ send b none) (bs : List Nat) :
    foreachPrivateBuses send bs = (bs.map (fun b => ⟨b, none⟩), 0) := by
  induction bs with
  | nil => rfl
  | cons b bs ih =>
      unfold foreachPrivateBuses
      rw [if_neg (not_lt.mpr (hok b))]
      simp [ih]

/-- When the send on the `i`-th private bus is the first to fail, the
fan-out loop attempts exactly the buses up to and including `i` and returns
that first error code. -/
theorem foreachPrivateBuses_first_fail (send : Nat → Option String → Int) :
    ∀ (bs : List Nat) (i : Nat) (hi : i < bs.length),
      send (bs.get ⟨i, hi⟩) none < 0 →
      (∀ j, (hj : j < i) → 0 ≤ send (bs.get ⟨j, Nat.lt_trans hj hi⟩) none) →
      foreachPrivateBuses send bs =
        ((bs.take (i+1)).map (fun b => ⟨b, none⟩), send (bs.get ⟨i, hi⟩) none)
  | [], i, hi => by simp at hi
  | b :: bs, 0, hi => by
      intro hfail _
      unfold foreachPrivateBuses
      simp only [List.get] at hfail
      rw [if_pos hfail]
      simp [List.get]
  | b :: bs, i + 1, hi => by
      intro hfail hok
      have hb : 0 ≤ send b none := by
        have := hok 0 (Nat.succ_pos i)
        simpa [List.get] using this
      unfold foreachPrivateBuses
      rw [if_neg (not_lt.mpr hb)]
      have hi' : i < bs.length := Nat.lt_of_succ_lt_succ hi
      have hrec := foreachPrivateBuses_first_fail send bs i hi'
        (by simpa [List.get] using hfail)
        (fun j hj => by
          have := hok (j + 1) (Nat.succ_lt_succ hj)
          simpa [List.get] using this)
      simp [hrec, List.get]

/-! ## C1 -/

/-- C1 counterexample: with two subscribers and two open private
connections, a send failure on the first connection aborts delivery — the
second private connection receives no send at all, and the first error code
(-5) is returned to the caller of deliver. -/
theorem c1_counterexample :
    (bus_manager_foreach_client mTwoSubs sendFail0).1 = [⟨0, none⟩] ∧
    Send.mk 1 none ∉ (bus_manager_foreach_client mTwoSubs sendFail0).1 ∧
    (bus_manager_foreach_client mTwoSubs sendFail0).2 = -5 := by decide

/-- C1 (amended): in the N≥2 broadcast path, a send failure on a private
connection aborts delivery to the remaining connections — exactly the
connections up to and including the failing one are attempted, the shared
api connection is not reached, and the caller of deliver receives the first
error code encountered. -/
theorem c1_amended (m : Manager) (send : Nat → Option String → Int)
    (i : Nat) (hi : i < m.private_buses.length)
    (h2 : 2 ≤ m.subscribed.length)
    (hfail : send (m.private_buses.get ⟨i, hi⟩) none < 0)
    (hok : ∀ j, (hj : j < i) →
      0 ≤ send (m.private_buses.get ⟨j, Nat.lt_trans hj hi⟩) none) :
    bus_manager_foreach_client m send =
      ((m.private_buses.take (i+1)).map (fun b => ⟨b, none⟩),
       send (m.private_buses.get ⟨i, hi⟩) none) := by
  have hp := foreachPrivateBuses_first_fail send m.private_buses i hi hfail hok
  unfold bus_manager_foreach_client
  rw [if_neg (by omega), if_neg (by omega)]
  simp only [hp]
  rw [if_pos hfail]

/-- C1 amended-claim witness at a concrete input: two subscribers, private
buses 0 and 1, the send on bus 0 failing with -5. -/
theorem c1_amended_witness :
    bus_manager_foreach_client mTwoSubs sendFail0 = ([⟨0, none⟩], -5) := by
  have h := c1_amended mTwoSubs sendFail0 0 (by decide) (by decide)
    (by decide) (fun j hj => absurd hj (Nat.not_lt_zero j))
  rw [h]; decide

/-! ## C2 -/

/-- A manager already holding a queued (deferred) reload reply. -/
def mPendingReload : Manager := { mBase with queued_message := some 0 }

/-- C2 counterexample: with a deferred reload reply already held, a second
Reload request does not fail with a protocol fault — the handler trips the
`assert(!m->queued_message)` assertion (process abort) instead of rejecting
the request. -/
theorem c2_counterexample :
    method_reload mPendingReload true 1 = ReloadOutcome.abort ∧
    (method_reload mPendingReload true 1).isFault = false := by decide

/-- C2 (amended): accepting a second Reload while a deferred reply is
already held trips the handler's assertion (abort): the request is neither
queued nor answered with a fault, and no second PendingDeferredReply is ever
created. -/
theorem c2_amended (m : Manager) (token : Nat)
    (h : m.queued_message.isSome = true) :
    method_reload m true token = ReloadOutcome.abort ∧
    (method_reload m true token).isFault = false := by
  unfold method_reload
  simp [h, ReloadOutcome.isFault]

/-- C2 amended-claim witness at a concrete input: a manager with a queued
reply token 0, a second Reload with token 1. -/
theorem c2_amended_witness :
    method_reload mPendingReload true 1 = ReloadOutcome.abort ∧
    (method_reload mPendingReload true 1).isFault = false :=
  c2_amended mPendingReload 1 rfl

/-! ## C3 -/

/-- C3: deliver with 0 subscribers performs zero sends; with exactly one
subscriber it performs exactly one send, to that subscriber's recorded bus
and destination filter; with N≥2 subscribers (all sends succeeding) it
performs one unfiltered send per open private connection plus one to the
shared api connection when present — independent of N. -/
theorem c3_deliver_send_counts (m : Manager) (send : Nat → Option String → Int)
    (hok : ∀ b d, 0 ≤ send b d) :
    (m.subscribed = [] → bus_manager_foreach_client m send = ([], 0)) ∧
    (∀ d, m.subscribed = [d] →
      (bus_manager_foreach_client m send).1 =
        [⟨d.bus, if isempty d.name then none else some d.name⟩]) ∧
    (2 ≤ m.subscribed.length →
      (bus_manager_foreach_client m send).1 =
        m.private_buses.map (fun b => ⟨b, none⟩) ++
          (match m.api_bus with
           | some a => [Send.mk a none]
           | none => [])) := by
  refine ⟨fun h0 => ?_, fun d h1 => ?_, fun h2 => ?_⟩
  · unfold bus_manager_foreach_client
    simp [h0]
  · unfold bus_manager_foreach_client
    simp [h1]
  · unfold bus_manager_foreach_client
    rw [if_neg (by omega), if_neg (by omega)]
    have hp := foreachPrivateBuses_all_ok send (fun b => hok b none) m.private_buses
    simp only [hp]
    rw [if_neg (by omega)]
    cases m.api_bus <;> simp

/-- C3 witness at a concrete input: two subscribers, private buses 0 and 1,
shared api bus 5, every send succeeding — exactly one send per open
connection. -/
theorem c3_deliver_send_counts_witness :
    (bus_manager_foreach_client mTwoSubsApi sendOk).1 =
      [⟨0, none⟩, ⟨1, none⟩, ⟨5, none⟩] := by
  have h := (c3_deliver_send_counts mTwoSubsApi sendOk
    (fun b d => le_refl 0)).2.2 (by decide)
  rw [h]; decide

/-! ## C4 -/

/-- A unit object used by the lookup fixtures. -/
def uServ : UnitObj := ⟨10, "a.service", .UNIT_SERVICE⟩

/-- A manager with one loaded unit and one job, for the lookup handlers. -/
def mLookup : Manager :=
  { mBase with units := [⟨10, "a.service", uServ⟩], jobs := [⟨7⟩] }

/-- C4 counterexample: GetUnit resolves the unit before any authorization
check — the trace of an authorized GetUnit on a loaded unit starts with the
lookup, and a GetUnit/GetJob on an absent object performs no authorization
check at all (zero checks, not exactly one before resolution) and fails
with NoSuchUnit/NoSuchJob. -/
theorem c4_counterexample :
    (method_get_unit mLookup "a.service" true).1 =
      [Ev.lookupUnit "a.service", Ev.authCheck] ∧
    (method_get_unit mLookup "missing.service" true).1 =
      [Ev.lookupUnit "missing.service"] ∧
    (method_get_unit mLookup "missing.service" true).2 =
      Except.error BusError.NO_SUCH_UNIT ∧
    (method_get_job mLookup 9 true).1 = [Ev.lookupJob 9] ∧
    (method_get_job mLookup 9 true).2 =
      Except.error BusError.NO_SUCH_JOB := by decide

/-- C4 (amended): GetUnit and GetJob perform no coarse pre-resolution
authorization check: each resolves its target object first and runs the
object-scoped authorization check only afterwards, and only when the object
exists; requests for absent objects fail with NoSuchUnit/NoSuchJob without
any authorization check being invoked. -/
theorem c4_amended (m : Manager) (name : String) (id : Nat) (a : Bool) :
    (method_get_unit m name a).1 =
      Ev.lookupUnit name ::
        (if (manager_get_unit m name).isSome then [Ev.authCheck] else []) ∧
    (manager_get_unit m name = none →
      (method_get_unit m name a).2 = .error .NO_SUCH_UNIT) ∧
    (method_get_job m id a).1 =
      Ev.lookupJob id ::
        (if (manager_get_job m id).isSome then [Ev.authCheck] else []) ∧
    (manager_get_job m id = none →
      (method_get_job m id a).2 = .error .NO_SUCH_JOB) := by
  refine ⟨?_, fun hu => ?_, ?_, fun hj => ?_⟩
  · unfold method_get_unit
    cases h : manager_get_unit m name <;> cases a <;> simp [h]
  · simp [method_get_unit, hu]
  · unfold method_get_job
    cases h : manager_get_job m id <;> cases a <;> simp [h]
  · simp [method_get_job, hj]

/-- C4 amended-claim witness at concrete inputs: a GetUnit and a GetJob on
absent objects fail with NoSuchUnit and NoSuchJob respectively. -/
theorem c4_amended_witness :
    (method_get_unit mLookup "missing.service" true).2 =
      Except.error BusError.NO_SUCH_UNIT ∧
    (method_get_job mLookup 9 true).2 = Except.error BusError.NO_SUCH_JOB :=
  ⟨(c4_amended mLookup "missing.service" 9 true).2.1 (by decide),
   (c4_amended mLookup "missing.service" 9 true).2.2.2 (by decide)⟩

/-! ## C5 -/

/-- C5: Subscribe when the endpoint is already in the registry returns
AlreadySubscribed with the registry unchanged; Unsubscribe when the endpoint
is absent returns NotSubscribed with the registry unchanged; a first
Subscribe succeeds and tracks the endpoint; a matching first Unsubscribe
succeeds and removes it. -/
theorem c5_subscribe_unsubscribe (m : Manager) (bus : Nat) (sender : String) :
    (clientTracked m.subscribed bus sender = true →
       method_subscribe m true bus sender = (m, some .ALREADY_SUBSCRIBED)) ∧
    (clientTracked m.subscribed bus sender = false →
       method_unsubscribe m true bus sender = (m, some .NOT_SUBSCRIBED)) ∧
    (clientTracked m.subscribed bus sender = false →
       (method_subscribe m true bus sender).2 = none ∧
       clientTracked (method_subscribe m true bus sender).1.subscribed
         bus sender = true) ∧
    (clientTracked m.subscribed bus sender = true →
       (method_unsubscribe m true bus sender).2 = none ∧
       clientTracked (method_unsubscribe m true bus sender).1.subscribed
         bus sender = false) := by
  refine ⟨fun hin => ?_, fun hout => ?_, fun hout => ?_, fun hin => ?_⟩
  · unfold method_subscribe bus_client_track
    rw [hin]; simp
  · unfold method_unsubscribe bus_client_untrack
    rw [hout]; simp
  · unfold method_subscribe bus_client_track
    rw [hout]
    simp only [Bool.false_eq_true, if_false, Bool.not_true]
    refine ⟨by simp, ?_⟩
    simp [clientTracked, List.any_append]
  · unfold method_unsubscribe bus_client_untrack
    rw [hin]
    simp only [if_true, Bool.not_true]
    refine ⟨by simp, ?_⟩
    have hfilter :
        (List.filter (fun d => !(d.bus == bus && d.name == sender))
            m.subscribed).any
          (fun d => d.bus == bus && d.name == sender) = false := by
      rw [List.any_eq_false]
      intro d hd
      rw [List.mem_filter] at hd
      have hd2 := hd.2
      simp at hd2 ⊢
      tauto
    simpa [clientTracked] using hfilter

/-- A manager with one subscribed endpoint (bus 0, sender "cli.x"). -/
def mOneSub : Manager := { mBase with subscribed := [⟨0, "cli.x"⟩] }

/-- C5 witness at concrete inputs: a second Subscribe from the tracked
endpoint faults with AlreadySubscribed, an Unsubscribe from an untracked
endpoint faults with NotSubscribed, and a first Subscribe from a fresh
endpoint succeeds. -/
theorem c5_subscribe_unsubscribe_witness :
    method_subscribe mOneSub true 0 "cli.x" =
      (mOneSub, some BusError.ALREADY_SUBSCRIBED) ∧
    method_unsubscribe mOneSub true 1 "cli.y" =
      (mOneSub, some BusError.NOT_SUBSCRIBED) ∧
    (method_subscribe mOneSub true 1 "cli.y").2 = none :=
  ⟨(c5_subscribe_unsubscribe mOneSub 0 "cli.x").1 rfl,
   (c5_subscribe_unsubscribe mOneSub 1 "cli.y").2.1 rfl,
   ((c5_subscribe_unsubscribe mOneSub 1 "cli.y").2.2.1 rfl).1⟩

/-! ## C6 -/

/-- C6: in a system instance with the coarse check passed, SwitchRoot with
root "/" or a non-absolute root fails with InvalidArguments, independently
of the external filesystem observations, and returns the manager unchanged
(in particular the stored switch-root and switch-root-init fields). -/
theorem c6_switch_root_rejects (m : Manager) (root init : String)
    (osTree initExecutable : Bool)
    (hsys : m.running_as = .SYSTEMD_SYSTEM)
    (hbad : root = "/" ∨ path_is_absolute root = false) :
    method_switch_root m true root init osTree initExecutable =
      (m, some .INVALID_ARGS) := by
  unfold method_switch_root path_equal_rootfs
  rcases hbad with h | h <;> simp [hsys, h]

/-- C6 witness at a concrete input: SwitchRoot with root "/" on a system
instance fails with InvalidArguments and leaves the manager unchanged. -/
theorem c6_switch_root_rejects_witness :
    method_switch_root mBase true "/" "" false false =
      (mBase, some BusError.INVALID_ARGS) :=
  c6_switch_root_rejects mBase "/" "" false false rfl (Or.inl rfl)

/-! ## C7 -/

/-- C7: for the batch unit-file operations, a successful collaborator call
with an empty change-record sequence triggers no UnitFilesChanged broadcast,
and one with a non-empty sequence triggers exactly one — both through the
shared reply path and through the enable-side, disable-side and
set-default-target entry points. -/
theorem c7_unit_files_changed_broadcasts (carries r : Bool)
    (changes : List UnitFileChange) :
    ((reply_unit_file_changes_and_free (some r) changes).1 =
       if changes = [] then 0 else 1) ∧
    ((method_enable_unit_files_generic true carries (some (r, changes))).1 =
       if changes = [] then 0 else 1) ∧
    ((method_disable_unit_files_generic true (some changes)).1 =
       if changes = [] then 0 else 1) ∧
    ((method_set_default_target true (some changes)).1 =
       if changes = [] then 0 else 1) := by
  cases changes <;>
    simp [reply_unit_file_changes_and_free, method_enable_unit_files_generic,
      method_disable_unit_files_generic, method_set_default_target]

/-! ## C8 -/

/-- A user-scope manager instance. -/
def mUser : Manager := { mBase with running_as := .SYSTEMD_USER }

/-- C8 counterexample: a successful SwitchRoot on a system instance records
no exit code — the exit code is unchanged (in particular it is not
MANAGER_SWITCH_ROOT); only the switch-root path fields are stored (shown
both with an empty init, stored as none, and with a non-empty init). -/
theorem c8_counterexample :
    (method_switch_root mBase true "/sysroot" "" true false).2 = none ∧
    (method_switch_root mBase true "/sysroot" "" true false).1.exit_code =
      ManagerExitCode.MANAGER_OK ∧
    (method_switch_root mBase true "/sysroot" "" true false).1.exit_code ≠
      ManagerExitCode.MANAGER_SWITCH_ROOT ∧
    (method_switch_root mBase true "/sysroot" "" true false).1.switch_root =
      some "/sysroot" ∧
    (method_switch_root mBase true "/sysroot" "" true false).1.switch_root_init =
      none ∧
    (method_switch_root mBase true "/sysroot" "/bin/sysinit" true true).2 =
      none ∧
    (method_switch_root mBase true "/sysroot" "/bin/sysinit" true true).1.exit_code =
      ManagerExitCode.MANAGER_OK ∧
    (method_switch_root mBase true "/sysroot" "/bin/sysinit" true true).1.switch_root =
      some "/sysroot" ∧
    (method_switch_root mBase true "/sysroot" "/bin/sysinit" true true).1.switch_root_init =
      some "/bin/sysinit" := by decide

/-- C8 (amended): Reboot, PowerOff, Halt, KExec and SwitchRoot fail with
NotSupported (manager unchanged) when the instance is not a system instance,
and Exit fails with NotSupported when it is; when allowed, Reboot, PowerOff,
Halt, KExec and Exit record their corresponding exit codes, while SwitchRoot
never changes the recorded exit code: a successful SwitchRoot only stores
the switch-root path and the init path (the latter as none when the init
argument is empty). -/
theorem c8_amended (m : Manager) (root init : String)
    (osTree initExecutable : Bool) :
    (m.running_as ≠ .SYSTEMD_SYSTEM →
       method_reboot m true = (m, some .NOT_SUPPORTED) ∧
       method_poweroff m true = (m, some .NOT_SUPPORTED) ∧
       method_halt m true = (m, some .NOT_SUPPORTED) ∧
       method_kexec m true = (m, some .NOT_SUPPORTED) ∧
       method_switch_root m true root init osTree initExecutable =
         (m, some .NOT_SUPPORTED) ∧
       method_exit m true = ({ m with exit_code := .MANAGER_EXIT }, none)) ∧
    (m.running_as = .SYSTEMD_SYSTEM →
       method_exit m true = (m, some .NOT_SUPPORTED) ∧
       method_reboot m true = ({ m with exit_code := .MANAGER_REBOOT }, none) ∧
       method_poweroff m true =
         ({ m with exit_code := .MANAGER_POWEROFF }, none) ∧
       method_halt m true = ({ m with exit_code := .MANAGER_HALT }, none) ∧
       method_kexec m true = ({ m with exit_code := .MANAGER_KEXEC }, none)) ∧
    (method_switch_root m true root init osTree initExecutable).1.exit_code =
      m.exit_code ∧
    ((method_switch_root m true root init osTree initExecutable).2 = none →
      (method_switch_root m true root init osTree initExecutable).1.switch_root =
        some root ∧
      (method_switch_root m true root init osTree initExecutable).1.switch_root_init =
        (if isempty init then none else some init)) := by
  refine ⟨fun hns => ?_, fun hs => ?_, ?_, ?_⟩
  · have hns' : m.running_as = .SYSTEMD_USER := by
      cases h : m.running_as
      · exact absurd h hns
      · rfl
    refine ⟨?_, ?_, ?_, ?_, ?_, ?_⟩ <;>
      simp [method_reboot, method_poweroff, method_halt, method_kexec,
        method_switch_root, method_exit, hns']
  · refine ⟨?_, ?_, ?_, ?_, ?_⟩ <;>
      simp [method_reboot, method_poweroff, method_halt, method_kexec,
        method_exit, hs]
  · simp only [method_switch_root,
      apply_ite (fun p : Manager × Option BusError => p.1.exit_code)]
    simp [ite_self]
  · unfold method_switch_root
    split_ifs with h1 h2 h3 h4 h5 h6 <;> intro hok <;> simp_all

/-- C8 amended-claim witness at concrete inputs: Reboot on a user instance
and Exit on a system instance both fault with NotSupported; Reboot on a
system instance records MANAGER_REBOOT; a successful SwitchRoot stores the
switch-root and init paths. -/
theorem c8_amended_witness :
    method_reboot mUser true = (mUser, some BusError.NOT_SUPPORTED) ∧
    method_exit mBase true = (mBase, some BusError.NOT_SUPPORTED) ∧
    method_reboot mBase true =
      ({ mBase with exit_code := .MANAGER_REBOOT }, none) ∧
    (method_switch_root mBase true "/sysroot" "/bin/sysinit" true true).1.switch_root =
      some "/sysroot" ∧
    (method_switch_root mBase true "/sysroot" "/bin/sysinit" true true).1.switch_root_init =
      (if isempty "/bin/sysinit" then none else some "/bin/sysinit") :=
  ⟨((c8_amended mUser "/" "" false false).1 (by decide)).1,
   ((c8_amended mBase "/" "" false false).2.1 rfl).1,
   ((c8_amended mBase "/" "" false false).2.1 rfl).2.1,
   ((c8_amended mBase "/sysroot" "/bin/sysinit" true true).2.2.2 (by decide)).1,
   ((c8_amended mBase "/sysroot" "/bin/sysinit" true true).2.2.2 (by decide)).2⟩

/-! ## C9 -/

/-- Counting snapshot tuples for a given unit identity equals counting the
hashmap entries that both survive the `k != u->id` skip and belong to that
unit. -/
theorem listUnitsLoop_countP (p : Nat) :
    ∀ es : List UnitEntry,
      (listUnitsLoop es).countP (fun u => u.idPtr == p) =
        es.countP (fun e => e.keyPtr == e.unit.idPtr && e.unit.idPtr == p)
  | [] => rfl
  | e :: es => by
      unfold listUnitsLoop
      by_cases hk : e.keyPtr = e.unit.idPtr
      · rw [if_pos hk]
        by_cases hp : e.unit.idPtr = p
        · rw [List.countP_cons_of_pos _ _ (by simp [hp]),
            List.countP_cons_of_pos _ _ (by simp [hk, hp]),
            listUnitsLoop_countP p es]
        · rw [List.countP_cons_of_neg _ _ (by simp [hp]),
            List.countP_cons_of_neg _ _ (by simp [hp]),
            listUnitsLoop_countP p es]
      · rw [if_neg hk,
          List.countP_cons_of_neg _ _ (by simp [hk]),
          listUnitsLoop_countP p es]

/-- With pairwise-distinct hashmap keys and a primary registration for the
unit with id pointer `p` (an entry keyed by `p` holding a unit whose id
pointer is `p`), exactly one entry survives the primary-id filter for that
unit. -/
theorem countP_primary_eq_one (p : Nat) :
    ∀ es : List UnitEntry,
      (es.map (fun e => e.keyPtr)).Nodup →
      (∃ e ∈ es, e.keyPtr = p ∧ e.unit.idPtr = p) →
      es.countP (fun e => e.keyPtr == e.unit.idPtr && e.unit.idPtr == p) = 1
  | [], _, hex => by simp at hex
  | e :: es, hnd, hex => by
      rw [List.map_cons, List.nodup_cons] at hnd
      obtain ⟨hnotin, hnd'⟩ := hnd
      rcases hex with ⟨e0, he0, hk0, hid0⟩
      rcases List.mem_cons.mp he0 with he0e | he0es
      · subst he0e
        have hpos :
            (fun a : UnitEntry =>
              a.keyPtr == a.unit.idPtr && a.unit.idPtr == p) e0 = true := by
          simp [hk0, hid0]
        rw [List.countP_cons_of_pos
          (fun a : UnitEntry =>
            a.keyPtr == a.unit.idPtr && a.unit.idPtr == p) es hpos]
        have hz : es.countP
            (fun a => a.keyPtr == a.unit.idPtr && a.unit.idPtr == p) = 0 := by
          rw [List.countP_eq_zero]
          intro a ha hpa
          simp only [Bool.and_eq_true, beq_iff_eq] at hpa
          have hkey : a.keyPtr = e0.keyPtr := by
            rw [hpa.1, hpa.2, hk0]
          exact hnotin (hkey ▸ List.mem_map_of_mem (fun x => x.keyPtr) ha)
        rw [hz]
      · have hpin : p ∈ es.map (fun x => x.keyPtr) :=
          hk0 ▸ List.mem_map_of_mem (fun x => x.keyPtr) he0es
        have hne :
            ¬(fun a : UnitEntry =>
              a.keyPtr == a.unit.idPtr && a.unit.idPtr == p) e = true := by
          simp only [Bool.and_eq_true, beq_iff_eq]
          rintro ⟨h1, h2⟩
          exact hnotin ((h1.trans h2) ▸ hpin)
        rw [List.countP_cons_of_neg
          (fun a : UnitEntry =>
            a.keyPtr == a.unit.idPtr && a.unit.idPtr == p) es hne]
        exact countP_primary_eq_one p es hnd' ⟨e0, he0es, hk0, hid0⟩

/-- C9: the ListUnits snapshot contains exactly one tuple per loaded unit
even when the unit is also registered in the unit hashmap under alias keys:
entries whose key differs from the unit's primary id are skipped, so the
unit with primary id pointer `p` appears exactly once. -/
theorem c9_list_units_one_per_unit (m : Manager) (p : Nat)
    (hkeys : (m.units.map (fun e => e.keyPtr)).Nodup)
    (hprim : ∃ e ∈ m.units, e.keyPtr = p ∧ e.unit.idPtr = p) :
    method_list_units m true = some (listUnitsLoop m.units) ∧
    (listUnitsLoop m.units).countP (fun u => u.idPtr == p) = 1 := by
  refine ⟨rfl, ?_⟩
  rw [listUnitsLoop_countP]
  exact countP_primary_eq_one p m.units hkeys hprim

/-- A unit registered twice: once under its primary id (key pointer 20) and
once under an alias name (key pointer 21). -/
def uAliased : UnitObj := ⟨20, "b.service", .UNIT_SERVICE⟩

/-- A manager whose unit hashmap holds `uAliased` under two keys and
`uServ` under one. -/
def mAliased : Manager :=
  { mBase with units := [⟨20, "b.service", uAliased⟩,
                         ⟨21, "alias.service", uAliased⟩,
                         ⟨10, "a.service", uServ⟩] }

/-- C9 witness at a concrete input: a unit registered under its primary id
and one alias appears exactly once in the ListUnits snapshot. -/
theorem c9_list_units_one_per_unit_witness :
    method_list_units mAliased true = some (listUnitsLoop mAliased.units) ∧
    (listUnitsLoop mAliased.units).countP (fun u => u.idPtr == 20) = 1 :=
  c9_list_units_one_per_unit mAliased 20 (by decide) (by decide)

/-! ## C10 -/

/-- C10: RemoveSnapshot reports the same NoSuchUnit fault both when no unit
with the requested name is loaded and when a unit with that name is loaded
but is not of snapshot type — the two cases cannot be told apart by fault
kind. -/
theorem c10_remove_snapshot_same_fault (m : Manager) (name : String) :
    (manager_get_unit m name = none →
       method_remove_snapshot m true name = some .NO_SUCH_UNIT) ∧
    (∀ u, manager_get_unit m name = some u → u.utype ≠ .UNIT_SNAPSHOT →
       method_remove_snapshot m true name = some .NO_SUCH_UNIT) := by
  constructor
  · intro h
    simp [method_remove_snapshot, h]
  · intro u hu ht
    simp [method_remove_snapshot, hu, ht]

/-- C10 witness at concrete inputs: an absent unit name and a loaded
non-snapshot unit produce the identical NoSuchUnit fault. -/
theorem c10_remove_snapshot_same_fault_witness :
    method_remove_snapshot mLookup true "missing.service" =
      some BusError.NO_SUCH_UNIT ∧
    method_remove_snapshot mLookup true "a.service" =
      some BusError.NO_SUCH_UNIT :=
  ⟨(c10_remove_snapshot_same_fault mLookup "missing.service").1 (by decide),
   (c10_remove_snapshot_same_fault mLookup "a.service").2 uServ
     (by decide) (by decide)⟩

end DbusManager
